import Mathlib

/-!
Verification of `src/app.py`, a single-file Streamlit PDF question-answering
chatbot.  The Python module defines four top-level functions —
`extract__text_from_pdf`, `load_qa_model`, `answer_question`, `main` — and this
development gives a shallow embedding of each behaviour the specification talks
about.  Python strings are modelled as `List Char`; the external PyPDF2 parser
and the Hugging Face QA pipeline are modelled as oracles whose fallible calls
return `Except`, so that the module's own `try/except` logic can be stated and
proved about.  Floating-point scores are modelled over `ℚ`.
-/

namespace PdfQA

/-- Python strings are modelled as lists of characters. -/
abbrev Str := List Char

/-! ## Text Extractor (`extract__text_from_pdf`, src/app.py lines 6-30) -/

/-- Oracle for the PyPDF2 boundary on one uploaded file: `PyPDF2.PdfReader`
either raises (carrying a message) or yields the list of pages, and each
page's `extract_text()` either raises or yields that page's text. -/
abbrev PdfFile := Except Str (List (Except Str Str))

/-- Literal text of the f-string `"Error extracting text: {str(e)}"`
(src/app.py line 30), up to the interpolated message. -/
def extractErrHeader : Str := "Error extracting text: ".data

/-- The page loop of `extract__text_from_pdf` (src/app.py lines 19-27): start
from the accumulated text, concatenate each page's text with no separator, and
propagate the first page-extraction failure. -/
def extractPages : List (Except Str Str) → Str → Except Str Str
  | [], text => .ok text
  | .error e :: _, _ => .error e
  | .ok t :: rest, text => extractPages rest (text ++ t)

/-- Embedding of `extract__text_from_pdf` (src/app.py lines 6-30): parse the
file, concatenate all pages' text in order; any failure of the parse or of a
page extraction is caught and converted into the string
`"Error extracting text: <message>"`, which becomes the return value. -/
def extract__text_from_pdf (pdf_file : PdfFile) : Str :=
  match pdf_file with
  | .error e => extractErrHeader ++ e
  | .ok pages =>
    match extractPages pages [] with
    | .ok text => text
    | .error e => extractErrHeader ++ e

/-! ## Answering Engine (`answer_question`, src/app.py lines 52-84) -/

/-- The approximate character limit `max_length = 512 * 3` (src/app.py
line 66). -/
def max_length : Nat := 512 * 3

/-- The in-place truncation performed inside `answer_question` (src/app.py
lines 67-69): `if len(context) > max_length: context = context[:max_length]`. -/
def truncateContext (context : Str) : Str :=
  if context.length > max_length then context.take max_length else context

/-- Structure returned by a successful call of the QA pipeline: an answer span
and a relevance score (a float in the source, modelled as `ℚ`). -/
structure ModelResult where
  answer : Str
  score : ℚ
  deriving DecidableEq

/-- A loaded QA model handle: invoked with a question and a context, it either
returns a `ModelResult` or raises (modelled as `Except.error` carrying the
exception message). -/
abbrev QaModel := Str → Str → Except Str ModelResult

/-- The dictionary `answer_question` returns: answer text and confidence
percentage (src/app.py lines 75-78 and 81-84). -/
structure QAResult where
  answer : Str
  confidence : ℚ
  deriving DecidableEq

/-- Python `round(v, 2)` applied to the rescaled score (src/app.py line 77),
modelled over `ℚ`: round to the nearest multiple of 1/100.  (CPython rounds
binary floats with ties-to-even; the tie-breaking rule is immaterial to every
property stated below.) -/
def pyRound2 (x : ℚ) : ℚ := (round (x * 100) : ℤ) / 100

/-- Literal text of the f-string `"Error: {str(e)}"` (src/app.py line 82), up
to the interpolated message. -/
def answerErrHeader : Str := "Error: ".data

/-- Observable trace of one `answer_question` call: the context string that was
passed to the model, how many model invocations were attempted, and the
returned dictionary. -/
structure AQTrace where
  contextPassed : Str
  attempts : Nat
  result : QAResult
  deriving DecidableEq

/-- Instrumented embedding of `answer_question` (src/app.py lines 52-84).  The
body truncates the context, invokes the model exactly once, and on success
returns the answer with `round(score * 100, 2)`; any exception of the model
invocation is caught by the surrounding `try/except` and converted to
`{answer: "Error: <message>", confidence: 0}`.  The trace additionally records
the context argument of the model call and the number of attempts. -/
def answer_questionRun (question context : Str) (qa_model : QaModel) : AQTrace :=
  let context := truncateContext context
  match qa_model question context with
  | .ok r => ⟨context, 1, ⟨r.answer, pyRound2 (r.score * 100)⟩⟩
  | .error e => ⟨context, 1, ⟨answerErrHeader ++ e, 0⟩⟩

/-- Embedding of `answer_question` proper: the dictionary it returns.  It is a
total function — no exception escapes its boundary. -/
def answer_question (question context : Str) (qa_model : QaModel) : QAResult :=
  (answer_questionRun question context qa_model).result

/-! ## History Ledger and Presentation Shell (`main`, src/app.py lines 150-186) -/

/-- One element of `st.session_state.history` (src/app.py lines 171-174): a
dictionary with the question and an answer that is a string or `None`. -/
structure HistoryEntry where
  question : Str
  answer : Option Str
  deriving DecidableEq

/-- The session state `main` reads and writes: the history list and
`st.session_state.last_question` (absent, i.e. `None`, before the first
append). -/
structure SessionState where
  history : List HistoryEntry
  last_question : Option Str
  deriving DecidableEq

/-- The model handle as observed by the n-th `answer_question` invocation of a
render pass.  Indexing the oracle by the invocation counter keeps distinct
invocations of the same loaded model distinguishable in the trace. -/
abbrev Oracle := Nat → QaModel

/-- Embedding of the history-append block of `main` (src/app.py lines
169-175): if `user_question` is truthy (non-empty) and differs from
`st.session_state.get('last_question')` (where `None != q` holds for every
string `q`), call `answer_question`, append `{'question': q, 'answer':
result['answer']}` — `'result' in locals()` is always true there, since
`result` is assigned on the line before — and set `last_question := q`;
otherwise leave the state unchanged.  Also returns the argument pairs of the
`answer_question` calls this block made. -/
def historyStep (o : Oracle) (n : Nat) (user_question pdf_text : Str)
    (s : SessionState) : SessionState × List (Str × Str) :=
  if user_question ≠ [] ∧ s.last_question ≠ some user_question then
    let result := answer_question user_question pdf_text (o n)
    ({ history := s.history ++ [{ question := user_question, answer := some result.answer }],
       last_question := some user_question }, [(user_question, pdf_text)])
  else (s, [])

/-- Python truthiness of the `answer` field in `if qa['answer']:` (src/app.py
line 183): `None` and the empty string are falsy. -/
def answerTruthy : Option Str → Bool
  | none => false
  | some a => decide (a ≠ [])

/-- The history entries actually rendered (src/app.py lines 182-186): iterate
`reversed(history[-5:])` — the last five entries, most recent first — and show
an entry only when its answer is truthy.  Python's `history[-5:]` is
`history.drop (history.length - 5)` (the clamped negative index). -/
def recentRendered (history : List HistoryEntry) : List HistoryEntry :=
  ((history.drop (history.length - 5)).reverse).filter fun qa => answerTruthy qa.answer

/-- Observable outcome of one post-upload render pass of `main`: the answer
displayed by the button branch (if any), whether the empty-question warning
fired, the session state afterwards, the argument pairs of every
`answer_question` invocation in order, and the rendered history view. -/
structure RenderTrace where
  displayedAnswer : Option QAResult
  warned : Bool
  state : SessionState
  modelCalls : List (Str × Str)
  renderedHistory : List HistoryEntry
  deriving DecidableEq

/-- Embedding of the question-handling part of `main`'s render pass (src/app.py
lines 150-186, with a file already uploaded and `pdf_text` computed).  The
button branch (lines 150-162): when the button was pressed, a non-empty
question is answered by `answer_question(q, pdf_text, qa_model)` and displayed,
an empty question raises the warning.  Then the history block (lines 169-175,
`historyStep`) runs unconditionally, and the history view is rendered (lines
179-186, `recentRendered`). -/
def renderPass (o : Oracle) (buttonPressed : Bool) (user_question pdf_text : Str)
    (s : SessionState) : RenderTrace :=
  let buttonAnswers := buttonPressed && !user_question.isEmpty
  let displayedAnswer :=
    if buttonAnswers then some (answer_question user_question pdf_text (o 0)) else none
  let warned := buttonPressed && user_question.isEmpty
  let n := if buttonAnswers then 1 else 0
  let buttonCalls := if buttonAnswers then [(user_question, pdf_text)] else []
  let (s1, histCalls) := historyStep o n user_question pdf_text s
  { displayedAnswer := displayedAnswer, warned := warned, state := s1,
    modelCalls := buttonCalls ++ histCalls, renderedHistory := recentRendered s1.history }

/-! ## Names, as written in the source

Two claims are about identifier strings that appear literally in `src/app.py`;
they are embedded as the strings themselves. -/

/-- The names of the four top-level functions defined in `src/app.py`.  Note
the Text Extractor is defined with a double underscore:
`def extract__text_from_pdf(pdf_file):` (line 6). -/
def appDefinedFunctionNames : List String :=
  ["extract__text_from_pdf", "load_qa_model", "answer_question", "main"]

/-- The callee name `main` uses for text extraction:
`pdf_text = extract_text_from_pdf(uploaded_file)` (src/app.py line 128),
written with a single underscore. -/
def mainExtractCalleeName : String := "extract_text_from_pdf"

/-- The identifier string passed as the `model` argument of the `pipeline(...)`
call in `load_qa_model` (src/app.py line 44). -/
def load_qa_model_model_id : String := "distilbert-base-ucased-distilled-squad"

/-- The identifier string passed as the `tokenizer` argument of the
`pipeline(...)` call in `load_qa_model` (src/app.py line 45). -/
def load_qa_model_tokenizer_id : String := "distilbert-base-uncased-distilled-squad"

/-! ## Concrete inputs used by counterexamples and witnesses -/

/-- A session history whose second (most recent) entry has an empty — hence
falsy — answer string.  Such an entry arises whenever the model returns an
empty answer span, since the append block always records
`result['answer']`. -/
def c9History : List HistoryEntry :=
  [{ question := "first question".data, answer := some "blue".data },
   { question := "second question".data, answer := some [] }]

/-- An oracle whose first invocation (index 0) and second invocation (index 1)
return different answer spans, making the two model calls of one render pass
observably distinct. -/
def c10Oracle : Oracle :=
  fun n _ _ => Except.ok ⟨if n = 0 then "shown".data else "stored".data, 0⟩

/-! ## Helper lemmas -/

/-- Unfolding lemma for `answer_questionRun` with the shadowing `let`
zeta-reduced. -/
theorem answer_questionRun_eq (question context : Str) (qa_model : QaModel) :
    answer_questionRun question context qa_model =
      match qa_model question (truncateContext context) with
      | .ok r => ⟨truncateContext context, 1, ⟨r.answer, pyRound2 (r.score * 100)⟩⟩
      | .error e => ⟨truncateContext context, 1, ⟨answerErrHeader ++ e, 0⟩⟩ := rfl

/-- The context argument of the single model invocation of `answer_question`
is the truncated context, whatever the model does. -/
theorem answer_questionRun_contextPassed (question context : Str) (qa_model : QaModel) :
    (answer_questionRun question context qa_model).contextPassed = truncateContext context := by
  rw [answer_questionRun_eq]
  cases qa_model question (truncateContext context) <;> rfl

/-- Every `answer_question` call makes exactly one model attempt. -/
theorem answer_questionRun_attempts (question context : Str) (qa_model : QaModel) :
    (answer_questionRun question context qa_model).attempts = 1 := by
  rw [answer_questionRun_eq]
  cases qa_model question (truncateContext context) <;> rfl

/-- Rounding to two decimals preserves the percentage range: for any rational
in [0, 100], `pyRound2` lands in [0, 100]. -/
theorem pyRound2_bounds (x : ℚ) (h0 : 0 ≤ x) (h1 : x ≤ 100) :
    0 ≤ pyRound2 x ∧ pyRound2 x ≤ 100 := by
  unfold pyRound2
  have hlo : (0 : ℤ) ≤ round (x * 100) := by
    rw [round_eq]
    apply Int.le_floor.mpr
    push_cast
    linarith
  have hhi : round (x * 100) ≤ 10000 := by
    rw [round_eq]
    have : ⌊x * 100 + 1 / 2⌋ < 10001 := by
      apply Int.floor_lt.mpr
      push_cast
      linarith
    omega
  constructor
  · apply div_nonneg _ (by norm_num)
    exact_mod_cast hlo
  · rw [div_le_iff₀ (by norm_num)]
    have : ((round (x * 100) : ℤ) : ℚ) ≤ 10000 := by exact_mod_cast hhi
    linarith

/-- If any page of the list fails to extract, the page loop propagates an
extraction failure (the Python loop raises at the first failing page). -/
theorem extractPages_error {pages : List (Except Str Str)} (acc : Str)
    (h : ∃ p ∈ pages, ∃ e, p = Except.error e) :
    ∃ e, extractPages pages acc = Except.error e := by
  induction pages generalizing acc with
  | nil => simp at h
  | cons p rest ih =>
    cases p with
    | error e => exact ⟨e, rfl⟩
    | ok t =>
      have h' : ∃ q ∈ rest, ∃ e, q = Except.error e := by
        rcases h with ⟨q, hq, e, he⟩
        rcases List.mem_cons.mp hq with rfl | hmem
        · simp at he
        · exact ⟨q, hmem, e, he⟩
      exact ih (acc ++ t) h'

/-- Equation for the appending branch of the history block. -/
theorem historyStep_pos (o : Oracle) (n : Nat) (q pdf : Str) (s : SessionState)
    (h : q ≠ [] ∧ s.last_question ≠ some q) :
    historyStep o n q pdf s =
      ({ history := s.history ++
            [{ question := q, answer := some (answer_question q pdf (o n)).answer }],
         last_question := some q }, [(q, pdf)]) := by
  unfold historyStep
  rw [if_pos h]

/-- Equation for the non-appending branch of the history block. -/
theorem historyStep_neg (o : Oracle) (n : Nat) (q pdf : Str) (s : SessionState)
    (h : ¬(q ≠ [] ∧ s.last_question ≠ some q)) :
    historyStep o n q pdf s = (s, []) := by
  unfold historyStep
  rw [if_neg h]

/-! ## The claims -/

/-- C1 (code bug in src/app.py): the spec says the Presentation Shell invokes
the Text Extractor defined in this module once per uploaded file, but `main`
(line 128) calls the name `extract_text_from_pdf`, which is not among the
module's defined top-level functions — the extractor is defined as
`extract__text_from_pdf` with a double underscore (line 6).  At runtime an
upload therefore raises `NameError` instead of running the extractor. -/
theorem c1_main_extract_callee_not_defined :
    appDefinedFunctionNames.contains mainExtractCalleeName = false ∧
    "extract__text_from_pdf" ∈ appDefinedFunctionNames := by decide

/-- C2 (code bug in src/app.py): the identifier string passed as the `model`
argument of `pipeline(...)` in `load_qa_model` differs from the one passed as
the `tokenizer` argument — line 44 misspells the id as
`distilbert-base-ucased-distilled-squad` (missing the `n` of `uncased`),
contradicting the spec's single fixed identifier for the paired model and
tokenizer. -/
theorem c2_model_and_tokenizer_ids_differ :
    (load_qa_model_model_id == load_qa_model_tokenizer_id) = false := by decide

/-- C3: `answer_question` makes exactly one model attempt per call, and when
the model invocation fails (raises), the exception is converted to
`{answer: "Error: <message>", confidence: 0}`.  The embedding of
`answer_question` is a total function, so no exception propagates past its
boundary. -/
theorem c3_answer_question_error_contained (question context : Str) (qa_model : QaModel) :
    (answer_questionRun question context qa_model).attempts = 1 ∧
    ∀ e, qa_model question (truncateContext context) = .error e →
      answer_question question context qa_model =
        { answer := answerErrHeader ++ e, confidence := 0 } := by
  refine ⟨answer_questionRun_attempts question context qa_model, fun e he => ?_⟩
  unfold answer_question
  rw [answer_questionRun_eq, he]

/-- Witness for C3: with a model that fails with message `boom`, the call
returns the error dictionary and made exactly one attempt. -/
theorem c3_witness :
    (answer_questionRun "q".data "ctx".data (fun _ _ => .error "boom".data)).attempts = 1 ∧
    answer_question "q".data "ctx".data (fun _ _ => .error "boom".data) =
      { answer := answerErrHeader ++ "boom".data, confidence := 0 } := by
  obtain ⟨h1, h2⟩ :=
    c3_answer_question_error_contained "q".data "ctx".data (fun _ _ => .error "boom".data)
  exact ⟨h1, h2 "boom".data rfl⟩

/-- C4: for every context strictly longer than 1536 characters, the context
actually passed to the model inside `answer_question` has length exactly 1536
and is a prefix of the original context (its first 1536 characters). -/
theorem c4_long_context_truncated (question context : Str) (qa_model : QaModel)
    (h : context.length > 1536) :
    (answer_questionRun question context qa_model).contextPassed.length = 1536 ∧
    (answer_questionRun question context qa_model).contextPassed <+: context := by
  rw [answer_questionRun_contextPassed]
  have ht : truncateContext context = context.take 1536 := by
    unfold truncateContext max_length
    rw [if_pos (by omega)]
  rw [ht]
  constructor
  · rw [List.length_take]
    omega
  · exact ⟨context.drop 1536, List.take_append_drop 1536 context⟩

/-- Witness for C4: a 1600-character context is passed on as its 1536-character
first part. -/
theorem c4_witness :
    (answer_questionRun [] (List.replicate 1600 'a')
        (fun _ _ => .error [])).contextPassed.length = 1536 ∧
    (answer_questionRun [] (List.replicate 1600 'a')
        (fun _ _ => .error [])).contextPassed <+: List.replicate 1600 'a' :=
  c4_long_context_truncated [] (List.replicate 1600 'a') (fun _ _ => .error [])
    (by rw [List.length_replicate]; omega)

/-- C5: for every context of length at most 1536, truncation is the identity —
the context passed to the model inside `answer_question` is the input context
unchanged. -/
theorem c5_short_context_unchanged (question context : Str) (qa_model : QaModel)
    (h : context.length ≤ 1536) :
    (answer_questionRun question context qa_model).contextPassed = context := by
  rw [answer_questionRun_contextPassed]
  unfold truncateContext max_length
  rw [if_neg (by omega)]

/-- Witness for C5: a three-character context is passed through unchanged. -/
theorem c5_witness :
    (answer_questionRun [] "abc".data (fun _ _ => .error [])).contextPassed = "abc".data :=
  c5_short_context_unchanged [] "abc".data (fun _ _ => .error []) (by decide)

/-- C6: the confidence of every `answer_question` result is in [0, 100] and is
a multiple of 1/100 (two decimal places): on success with a model score in
[0, 1] it equals `round(score * 100, 2)`, and on failure it equals 0. -/
theorem c6_confidence_range_and_rounding (question context : Str) (qa_model : QaModel) :
    (∀ r, qa_model question (truncateContext context) = .ok r →
      0 ≤ r.score → r.score ≤ 1 →
      (answer_question question context qa_model).confidence = pyRound2 (r.score * 100) ∧
      0 ≤ (answer_question question context qa_model).confidence ∧
      (answer_question question context qa_model).confidence ≤ 100 ∧
      ∃ k : ℤ, (answer_question question context qa_model).confidence = (k : ℚ) / 100) ∧
    (∀ e, qa_model question (truncateContext context) = .error e →
      (answer_question question context qa_model).confidence = 0) := by
  constructor
  · intro r hr h0 h1
    have hc : (answer_question question context qa_model).confidence
        = pyRound2 (r.score * 100) := by
      unfold answer_question
      rw [answer_questionRun_eq, hr]
    refine ⟨hc, ?_, ?_, ?_⟩
    · rw [hc]
      exact (pyRound2_bounds _ (by linarith) (by linarith)).1
    · rw [hc]
      exact (pyRound2_bounds _ (by linarith) (by linarith)).2
    · exact ⟨round (r.score * 100 * 100), by rw [hc]; rfl⟩
  · intro e he
    unfold answer_question
    rw [answer_questionRun_eq, he]

/-- Witness for C6: a model scoring 1/2 yields a confidence equal to
`round(50, 2)`, inside [0, 100] and a multiple of 1/100. -/
theorem c6_witness :
    (answer_question "q".data "ctx".data (fun _ _ => .ok ⟨"a".data, 1/2⟩)).confidence
        = pyRound2 (1/2 * 100) ∧
    0 ≤ (answer_question "q".data "ctx".data (fun _ _ => .ok ⟨"a".data, 1/2⟩)).confidence ∧
    (answer_question "q".data "ctx".data (fun _ _ => .ok ⟨"a".data, 1/2⟩)).confidence ≤ 100 ∧
    ∃ k : ℤ, (answer_question "q".data "ctx".data
        (fun _ _ => .ok ⟨"a".data, 1/2⟩)).confidence = (k : ℚ) / 100 :=
  (c6_confidence_range_and_rounding "q".data "ctx".data (fun _ _ => .ok ⟨"a".data, 1/2⟩)).1
    ⟨"a".data, 1/2⟩ rfl (by norm_num) (by norm_num)

/-- C7: whenever any error occurs while parsing the document or extracting a
page's text, `extract__text_from_pdf` returns the string
`"Error extracting text: <message>"` as its value; the embedding is a total
function, so nothing is raised past its boundary. -/
theorem c7_extract_error_string (pdf_file : PdfFile)
    (h : (∃ e, pdf_file = Except.error e) ∨
         ∃ pages, pdf_file = Except.ok pages ∧ ∃ p ∈ pages, ∃ e, p = Except.error e) :
    ∃ msg, extract__text_from_pdf pdf_file = extractErrHeader ++ msg := by
  rcases h with ⟨e, rfl⟩ | ⟨pages, rfl, hp⟩
  · exact ⟨e, rfl⟩
  · obtain ⟨e, he⟩ := extractPages_error [] hp
    exact ⟨e, by simp [extract__text_from_pdf, he]⟩

/-- Witness for C7: a document whose second page fails to extract yields the
error-string result. -/
theorem c7_witness :
    ∃ msg, extract__text_from_pdf
        (Except.ok [Except.ok "page one".data, Except.error "bad page".data]) =
      extractErrHeader ++ msg :=
  c7_extract_error_string _
    (Or.inr ⟨_, rfl, Except.error "bad page".data, by simp, "bad page".data, rfl⟩)

/-- C8: the history block appends an entry if and only if the question is
non-empty and differs from the recorded last question (`None` on the first
call differs from every string), it then records the question as last; hence
processing the same new non-empty question twice in a row appends exactly one
entry. -/
theorem c8_history_append_iff_new (o : Oracle) (n n2 : Nat) (q pdf : Str) (s : SessionState) :
    ((q ≠ [] ∧ s.last_question ≠ some q) →
      (historyStep o n q pdf s).1.history =
        s.history ++ [{ question := q, answer := some (answer_question q pdf (o n)).answer }] ∧
      (historyStep o n q pdf s).1.last_question = some q) ∧
    (¬(q ≠ [] ∧ s.last_question ≠ some q) → (historyStep o n q pdf s).1 = s) ∧
    (q ≠ [] → s.last_question ≠ some q →
      (historyStep o n2 q pdf (historyStep o n q pdf s).1).1.history.length =
        s.history.length + 1) := by
  refine ⟨fun h => ?_, fun h => ?_, fun h1 h2 => ?_⟩
  · rw [historyStep_pos o n q pdf s h]
    exact ⟨rfl, rfl⟩
  · rw [historyStep_neg o n q pdf s h]
  · rw [historyStep_pos o n q pdf s ⟨h1, h2⟩, historyStep_neg _ _ _ _ _ (by simp)]
    simp

/-- Witness for C8: starting from the empty session, processing the question
`what` twice in a row leaves exactly one history entry. -/
theorem c8_witness :
    (historyStep (fun _ _ _ => Except.ok ⟨"blue".data, 1/2⟩) 1 "what".data "text".data
        ((historyStep (fun _ _ _ => Except.ok ⟨"blue".data, 1/2⟩) 0 "what".data "text".data
          { history := [], last_question := none }).1)).1.history.length = 1 :=
  (c8_history_append_iff_new (fun _ _ _ => Except.ok ⟨"blue".data, 1/2⟩) 0 1 "what".data
      "text".data { history := [], last_question := none }).2.2 (by decide) (by decide)

/-- C9 counterexample: the claim that the rendered recent-history view is
always exactly a reversed suffix of the full history fails, because rendering
skips entries whose answer is falsy (src/app.py line 183,
`if qa['answer']:`).  For `c9History`, whose most recent entry has an empty
answer string, the rendered view keeps only the older entry, which is the
reverse of no suffix of the history. -/
theorem c9_counterexample :
    ((recentRendered c9History).length ≤ 5 ∧
      (recentRendered c9History).reverse <:+ c9History) ↔ False := by decide

/-- C9 amended: the rendered view never has more than 5 entries, and whenever
every entry of the displayed window (the last five history entries) has a
present, non-empty answer, the rendered entries are exactly a suffix of the
full history in reverse chronological order. -/
theorem c9_recent_bounded_and_reversed_suffix (history : List HistoryEntry) :
    (recentRendered history).length ≤ 5 ∧
    ((∀ e ∈ history.drop (history.length - 5), answerTruthy e.answer = true) →
      (recentRendered history).reverse <:+ history) := by
  constructor
  · unfold recentRendered
    have h1 := List.length_filter_le (fun qa => answerTruthy qa.answer)
      ((history.drop (history.length - 5)).reverse)
    rw [List.length_reverse, List.length_drop] at h1
    omega
  · intro hall
    unfold recentRendered
    rw [List.filter_eq_self.mpr ?_, List.reverse_reverse]
    · exact List.drop_suffix _ _
    · intro a ha
      exact hall a (List.mem_reverse.mp ha)

/-- Witness for C9 amended: a two-entry history with non-empty answers renders
as its own reversal, a reversed suffix of itself. -/
theorem c9_witness :
    (recentRendered [{ question := "q1".data, answer := some "a1".data },
        { question := "q2".data, answer := some "a2".data }]).length ≤ 5 ∧
    (recentRendered [{ question := "q1".data, answer := some "a1".data },
        { question := "q2".data, answer := some "a2".data }]).reverse <:+
      [{ question := "q1".data, answer := some "a1".data },
       { question := "q2".data, answer := some "a2".data }] :=
  ⟨(c9_recent_bounded_and_reversed_suffix _).1,
   (c9_recent_bounded_and_reversed_suffix _).2 (by decide)⟩

/-- C10: when the button is pressed with a non-empty question that differs
from the recorded last question, the render pass invokes `answer_question`
twice with the same arguments `(question, full pdf text)` on the same model
handle — the displayed answer comes from invocation 0 and the answer recorded
in the appended history entry from the separate invocation 1. -/
theorem c10_answer_question_invoked_twice (o : Oracle) (q pdf : Str) (s : SessionState)
    (hq : q ≠ []) (hlast : s.last_question ≠ some q) :
    (renderPass o true q pdf s).modelCalls = [(q, pdf), (q, pdf)] ∧
    (renderPass o true q pdf s).displayedAnswer = some (answer_question q pdf (o 0)) ∧
    (renderPass o true q pdf s).state.history =
      s.history ++ [{ question := q, answer := some (answer_question q pdf (o 1)).answer }] := by
  have hqe : q.isEmpty = false := by
    cases q with
    | nil => exact absurd rfl hq
    | cons a l => rfl
  simp [renderPass, historyStep_pos o 1 q pdf s ⟨hq, hlast⟩, hqe]

/-- Witness for C10: with an oracle answering `shown` on its first invocation
and `stored` on its second, pressing the button on a fresh question makes two
model calls with identical arguments; the display shows invocation 0's result
and the history records invocation 1's answer. -/
theorem c10_witness :
    (renderPass c10Oracle true "color".data "text".data
        { history := [], last_question := none }).modelCalls =
      [("color".data, "text".data), ("color".data, "text".data)] ∧
    (renderPass c10Oracle true "color".data "text".data
        { history := [], last_question := none }).displayedAnswer =
      some (answer_question "color".data "text".data (c10Oracle 0)) ∧
    (renderPass c10Oracle true "color".data "text".data
        { history := [], last_question := none }).state.history =
      [] ++ [{ question := "color".data,
               answer := some (answer_question "color".data "text".data (c10Oracle 1)).answer }] :=
  c10_answer_question_invoked_twice c10Oracle "color".data "text".data
    { history := [], last_question := none } (by decide) (by decide)

end PdfQA
